import Mathlib

/-
  Verification development for the nyc-traffic-monitor virtual-loop counting core.

  Shallow embedding of src/backend/virtual_loop.py (VehicleTracker,
  VirtualInductiveLoop, VirtualLoopSystem) and src/backend/real_time_logger.py
  (RealTimeTrafficLogger).  Pixel coordinates are Int, timestamps and
  confidences are Rat (exact arithmetic standing in for Python floats),
  Python dicts are insertion-ordered association lists.
-/

namespace TrafficMonitor

/-- A pixel centroid, as a pair of integer coordinates. -/
abbrev Point := Int × Int

/-- Squared Euclidean distance between two integer points.  The Python code
compares `np.linalg.norm(a - b) < r` for integer inputs; for nonnegative `r`
this is equivalent to comparing the exact squared distance with `r ^ 2`. -/
def sqDist (a b : Point) : Int :=
  (a.1 - b.1) ^ 2 + (a.2 - b.2) ^ 2

/-- Lookup in an insertion-ordered association list (Python `d[k]` / `k in d`). -/
def dictLookup {κ α : Type} [DecidableEq κ] : List (κ × α) → κ → Option α
  | [], _ => none
  | (k0, v) :: t, k => if k0 = k then some v else dictLookup t k

/-- Python dict assignment `d[k] = v`: replaces in place when the key exists
(keeping its position), otherwise appends at the end. -/
def dictInsert {κ α : Type} [DecidableEq κ] : List (κ × α) → κ → α → List (κ × α)
  | [], k, v => [(k, v)]
  | (k0, v0) :: t, k, v =>
      if k0 = k then (k, v) :: t else (k0, v0) :: dictInsert t k v

/-- Python `d[k] = d.get(k, 0) + 1`: bump a per-class counter. -/
def dictBump {κ : Type} [DecidableEq κ] (l : List (κ × Nat)) (k : κ) : List (κ × Nat) :=
  dictInsert l k ((dictLookup l k).getD 0 + 1)

/-- Insert into a list sorted by `key`, after all elements of equal key
(Python `sorted` is stable). -/
def sortedInsertBy {α : Type} (key : α → Rat) (x : α) : List α → List α
  | [] => [x]
  | y :: l => if key x < key y then x :: y :: l else y :: sortedInsertBy key x l

/-- Stable sort by a rational key (model of Python `sorted(l, key=...)`). -/
def stableSortBy {α : Type} (key : α → Rat) (l : List α) : List α :=
  l.foldl (fun acc x => sortedInsertBy key x acc) []

/-- The last `n` elements of a list, in order (the result of repeatedly
evicting the oldest element once the list exceeds `n` entries). -/
def lastN {α : Type} (n : Nat) (l : List α) : List α :=
  l.drop (l.length - n)

/-- Modelled from the external OpenCV routine `cv2.pointPolygonTest` called by
`VirtualInductiveLoop.is_point_in_zone` (integer contour, measureDist=False):
the classic ray-crossing parity test with an explicit on-edge check.  Returns
`0` for a point on the contour, `1` for odd crossing parity (inside), `-1`
otherwise (outside).  For each directed edge `(v0, v)` the scan either
detects the point on the edge (result 0), skips the edge, or counts a signed
ray crossing. -/
inductive EdgeOutcome : Type
  | onEdge : EdgeOutcome
  | skip : EdgeOutcome
  | count : EdgeOutcome
  deriving DecidableEq

/-- One step of the OpenCV integer point-in-polygon scan, for edge `(v0, v)`
and query point `p`. -/
def pptEdge (p v0 v : Point) : EdgeOutcome :=
  if (v0.2 ≤ p.2 ∧ v.2 ≤ p.2) ∨ (v0.2 > p.2 ∧ v.2 > p.2) ∨
     (v0.1 < p.1 ∧ v.1 < p.1) then
    if p.2 = v.2 ∧ (p.1 = v.1 ∨ (p.2 = v0.2 ∧
        ((v0.1 ≤ p.1 ∧ p.1 ≤ v.1) ∨ (v.1 ≤ p.1 ∧ p.1 ≤ v0.1)))) then
      EdgeOutcome.onEdge
    else
      EdgeOutcome.skip
  else
    let dist := (p.2 - v0.2) * (v.1 - v0.1) - (p.1 - v0.1) * (v.2 - v0.2)
    if dist = 0 then EdgeOutcome.onEdge
    else if v.2 < v0.2 then
      (if -dist > 0 then EdgeOutcome.count else EdgeOutcome.skip)
    else
      (if dist > 0 then EdgeOutcome.count else EdgeOutcome.skip)

/-- The directed edges of the contour, matching OpenCV's iteration: the first
edge runs from the last vertex to the first, then consecutive pairs. -/
def polygonEdges (pts : List Point) : List (Point × Point) :=
  match pts with
  | [] => []
  | p :: ps => ((p :: ps).getLastD p :: (p :: ps).dropLast).zip (p :: ps)

/-- Scan all edges: any on-edge hit yields 0 immediately, otherwise the
crossing-count parity decides inside (+1) or outside (-1). -/
def pptScan (p : Point) : List (Point × Point) → Nat → Int
  | [], counter => if counter % 2 = 0 then -1 else 1
  | e :: es, counter =>
      match pptEdge p e.1 e.2 with
      | EdgeOutcome.onEdge => 0
      | EdgeOutcome.skip => pptScan p es counter
      | EdgeOutcome.count => pptScan p es (counter + 1)

/-- The full point-polygon test (model of `cv2.pointPolygonTest` with
measureDist=False on an integer contour). -/
def pointPolygonTest (pts : List Point) (p : Point) : Int :=
  pptScan p (polygonEdges pts) 0

/-- `VehicleDetection` (virtual_loop.py lines 20-29): a single detection. -/
structure VehicleDetection where
  id : Int
  class_name : String
  confidence : Rat
  bbox : Int × Int × Int × Int
  centroid : Point
  timestamp : Rat
  frame_number : Int
  deriving DecidableEq

/-- `LoopCrossing` (virtual_loop.py lines 31-41): a recorded crossing. -/
structure LoopCrossing where
  vehicle_id : Int
  loop_name : String
  class_name : String
  confidence : Rat
  timestamp : Rat
  frame_number : Int
  direction : String
  centroid : Point
  deriving DecidableEq

/-- The crossing record built on the acceptance path of `check_crossing`
(virtual_loop.py lines 220-229). -/
def mkLoopCrossing (name : String) (vid : Int) (cur : Point)
    (vd : VehicleDetection) (dir : String) : LoopCrossing :=
  { vehicle_id := vid, loop_name := name, class_name := vd.class_name,
    confidence := vd.confidence, timestamp := vd.timestamp,
    frame_number := vd.frame_number, direction := dir, centroid := cur }

/-- `VirtualInductiveLoop` state (virtual_loop.py lines 137-156). -/
structure VirtualInductiveLoop where
  name : String
  zone_points : List Point
  direction : String
  crossings : List LoopCrossing
  previous_positions : List (Int × Point)
  counted_vehicles : List (Int × Rat)
  recent_crossings : List (Point × Rat)
  cooldown_seconds : Rat
  deriving DecidableEq

/-- `VirtualInductiveLoop.__init__` (lines 140-156): stores the polygon and
direction token unchecked and starts with empty histories and caches;
`cooldown_seconds` defaults to 0.5. -/
def mkVirtualInductiveLoop (name : String) (zone_points : List Point)
    (direction : String) : VirtualInductiveLoop :=
  { name := name
    zone_points := zone_points
    direction := direction
    crossings := []
    previous_positions := []
    counted_vehicles := []
    recent_crossings := []
    cooldown_seconds := 1 / 2 }

/-- `VirtualInductiveLoop.is_point_in_zone` (lines 158-163): inside iff the
point-polygon test is nonnegative (boundary result 0 counts as inside). -/
def is_point_in_zone (L : VirtualInductiveLoop) (p : Point) : Bool :=
  decide (0 ≤ pointPolygonTest L.zone_points p)

/-- `VirtualInductiveLoop.check_crossing` (lines 165-242).  Both
duplicate-suppression caches are pruned to the cooldown window first; then,
for an identity with a known previous position, a membership transition is
classified, filtered by the direction policy, and checked against the
identity cooldown and the 50-pixel spatial cooldown (compared on exact
squared distances).  Returns the updated loop state and the optional new
crossing.  On every path that returns no crossing the previous position is
set to the current centroid; on acceptance it is left untouched. -/
def check_crossing (L : VirtualInductiveLoop) (vehicle_id : Int)
    (current_centroid : Point) (vehicle_data : VehicleDetection) :
    VirtualInductiveLoop × Option LoopCrossing :=
  let current_in_zone := is_point_in_zone L current_centroid
  let t := vehicle_data.timestamp
  let recent := L.recent_crossings.filter
    (fun rc => decide (t - rc.2 < L.cooldown_seconds))
  let counted := L.counted_vehicles.filter
    (fun cv => decide (t - cv.2 < L.cooldown_seconds))
  match dictLookup L.previous_positions vehicle_id with
  | some previous_centroid =>
      let previous_in_zone := is_point_in_zone L previous_centroid
      let crossing_type : Option String :=
        if previous_in_zone = false ∧ current_in_zone = true then some "entry"
        else if previous_in_zone = true ∧ current_in_zone = false then some "exit"
        else none
      match crossing_type with
      | some ct =>
          if L.direction = "both" ∨ L.direction = ct then
            if (dictLookup counted vehicle_id).isSome then
              ({ L with recent_crossings := recent, counted_vehicles := counted,
                        previous_positions :=
                          dictInsert L.previous_positions vehicle_id current_centroid },
               none)
            else if recent.any (fun rc => decide (sqDist current_centroid rc.1 < 50 ^ 2)) then
              ({ L with recent_crossings := recent, counted_vehicles := counted,
                        previous_positions :=
                          dictInsert L.previous_positions vehicle_id current_centroid },
               none)
            else
              let c : LoopCrossing :=
                { vehicle_id := vehicle_id
                  loop_name := L.name
                  class_name := vehicle_data.class_name
                  confidence := vehicle_data.confidence
                  timestamp := vehicle_data.timestamp
                  frame_number := vehicle_data.frame_number
                  direction := ct
                  centroid := current_centroid }
              ({ L with crossings := L.crossings ++ [c]
                        counted_vehicles := dictInsert counted vehicle_id t
                        recent_crossings := recent ++ [(current_centroid, t)] },
               some c)
          else
            ({ L with recent_crossings := recent, counted_vehicles := counted,
                      previous_positions :=
                        dictInsert L.previous_positions vehicle_id current_centroid },
             none)
      | none =>
          ({ L with recent_crossings := recent, counted_vehicles := counted,
                    previous_positions :=
                      dictInsert L.previous_positions vehicle_id current_centroid },
           none)
  | none =>
      ({ L with recent_crossings := recent, counted_vehicles := counted,
                previous_positions :=
                  dictInsert L.previous_positions vehicle_id current_centroid },
       none)

/-- A sequence of `check_crossing` calls for a single identity: each element
supplies the centroid and the detection record for that frame. -/
def runCheckCrossings (L : VirtualInductiveLoop) (vehicle_id : Int) :
    List (Point × VehicleDetection) → VirtualInductiveLoop
  | [] => L
  | (c, vd) :: rest =>
      runCheckCrossings (check_crossing L vehicle_id c vd).1 vehicle_id rest

/-- `TrafficCount` (virtual_loop.py lines 43-51): one interval bucket. -/
structure TrafficCount where
  start_time : Rat
  end_time : Rat
  interval_seconds : Int
  total_count : Nat
  vehicle_counts : List (String × Nat)
  crossings : List LoopCrossing
  deriving DecidableEq

/-- `VirtualLoopSystem` state (virtual_loop.py lines 338-352); the real-time
logger side channel is modelled separately (real_time_logger.py below). -/
structure VirtualLoopSystem where
  location_id : String
  loops : List (String × VirtualInductiveLoop)
  all_crossings : List LoopCrossing
  video_fps : Int
  deriving DecidableEq

/-- `VirtualLoopSystem.__init__` (lines 341-352). -/
def mkVirtualLoopSystem (location_id : String) : VirtualLoopSystem :=
  { location_id := location_id, loops := [], all_crossings := [], video_fps := 30 }

/-- `VirtualLoopSystem.add_loop` (lines 354-357): plain dict assignment under
the loop's name — an existing loop with the same name is silently replaced
and no error is reported. -/
def add_loop (sys : VirtualLoopSystem) (loop : VirtualInductiveLoop) :
    VirtualLoopSystem :=
  { sys with loops := dictInsert sys.loops loop.name loop }

/-- Per-class counts of a crossing list (virtual_loop.py lines 427-431). -/
def countsByClass (crossings : List LoopCrossing) : List (String × Nat) :=
  crossings.foldl (fun acc c => dictBump acc c.class_name) []

/-- Number of iterations of the `while current_start < end_time` loop in
`get_traffic_counts`: the least `n` with `s + n * w ≥ e`, i.e. `⌈(e-s)/w⌉`,
for a positive width.  For `w ≤ 0` the Python loop would not terminate
whenever `s < e`; the claims only concern positive widths. -/
def numIntervals (s e : Rat) (w : Int) : Nat :=
  if w ≤ 0 then 0 else (⌈(e - s) / (w : Rat)⌉).toNat

/-- `VirtualLoopSystem.get_traffic_counts` (lines 394-445): sorts the global
crossing history by timestamp, then builds half-open buckets
`[s + k*w, s + (k+1)*w)` starting at the first timestamp, one per iteration
of `while current_start < end_time` where `end_time` is the last timestamp;
each bucket collects exactly the crossings whose timestamp lies in it. -/
def get_traffic_counts (sys : VirtualLoopSystem) (interval_seconds : Int) :
    List TrafficCount :=
  match stableSortBy (fun c => c.timestamp) sys.all_crossings with
  | [] => []
  | first :: rest =>
      let sorted := first :: rest
      let startT := first.timestamp
      let endT := (sorted.getLastD first).timestamp
      (List.range (numIntervals startT endT interval_seconds)).map (fun k =>
        let cs := startT + (k : Rat) * (interval_seconds : Rat)
        let ce := cs + (interval_seconds : Rat)
        let ics := sorted.filter (fun c => decide (cs ≤ c.timestamp ∧ c.timestamp < ce))
        { start_time := cs
          end_time := ce
          interval_seconds := interval_seconds
          total_count := ics.length
          vehicle_counts := countsByClass ics
          crossings := ics })

/-- One tracked object: Python keeps two parallel dicts `objects` and
`disappeared` over the same insertion-ordered keys; they are fused into one
ordered list of records. -/
structure Track where
  id : Nat
  centroid : Point
  disappeared : Nat
  deriving DecidableEq

/-- `VehicleTracker` state (virtual_loop.py lines 53-61). -/
structure VehicleTracker where
  next_object_id : Nat
  tracks : List Track
  max_disappeared : Nat
  max_distance : Rat
  deriving DecidableEq

/-- `VehicleTracker.__init__` defaults (line 56): `max_disappeared = 30`,
`max_distance = 100`. -/
def mkVehicleTracker : VehicleTracker :=
  { next_object_id := 0, tracks := [], max_disappeared := 30, max_distance := 100 }

/-- `VehicleTracker.register` applied to each point in order: fresh ids are
assigned monotonically starting at `nextId`, appended at the end. -/
def registerAll (nextId : Nat) (dets : List Point) : List Track :=
  dets.enum.map (fun jd => { id := nextId + jd.1, centroid := jd.2, disappeared := 0 })

/-- All (track index, detection index, squared distance) entries of the
distance matrix in row-major order (virtual_loop.py lines 97-100; exact
squared distances replace `np.linalg.norm`, preserving the comparison and
sort order). -/
def trackerPairs (tracks : List Track) (dets : List Point) :
    List (Nat × Nat × Int) :=
  (tracks.enum.map (fun itr =>
    dets.enum.map (fun jd => (itr.1, jd.1, sqDist itr.2.centroid jd.2)))).flatten

/-- Greedy assignment over the distance-sorted pair list (lines 103-120;
`np.argsort` over the flattened matrix is modelled as a stable sort of the
row-major pair list — ties are broken by matrix iteration order, the
behaviour the spec documents as the accepted nondeterminism):
accept a pair iff neither its row nor its column is already used and the
distance is within `max_distance` (squared comparison). -/
def greedyAssign (max_distance : Rat) (pairs : List (Nat × Nat × Int)) :
    List (Nat × Nat) :=
  pairs.foldl (fun acc p =>
    if acc.any (fun q => decide (q.1 = p.1)) ∨ acc.any (fun q => decide (q.2 = p.2.1)) then
      acc
    else if ((p.2.2 : Rat) ≤ max_distance ^ 2) then acc ++ [(p.1, p.2.1)]
    else acc) []

/-- Effect of the matching on the pre-existing tracks (lines 113-120 and
127-133): a matched track takes its detection's centroid and resets its
missing-counter; an unmatched track increments it and is dropped once the
counter exceeds `max_disappeared`. -/
def applyMatches (tracks : List Track) (dets : List Point)
    (accepted : List (Nat × Nat)) (max_disappeared : Nat) : List Track :=
  tracks.enum.filterMap (fun itr =>
    match accepted.find? (fun q => decide (q.1 = itr.1)) with
    | some q => some { itr.2 with centroid := dets.getD q.2 (0, 0), disappeared := 0 }
    | none =>
        if itr.2.disappeared + 1 > max_disappeared then none
        else some { itr.2 with disappeared := itr.2.disappeared + 1 })

/-- The detections left unmatched by the greedy assignment, in frame order
(lines 122-125). -/
def unmatchedDets (dets : List Point) (accepted : List (Nat × Nat)) :
    List Point :=
  (dets.enum.filter (fun jd => ! accepted.any (fun q => decide (q.2 = jd.1)))).map (·.2)

/-- `VehicleTracker.update` (virtual_loop.py lines 76-135), with the source's
three branches: no detections (mark all missing), no existing objects
(register everything), and the general greedy-matching path.  Returns the
updated tracker and the `objects.copy()` id-to-centroid mapping. -/
def trackerUpdate (T : VehicleTracker) (detections : List Point) :
    VehicleTracker × List (Nat × Point) :=
  if detections.isEmpty then
    let tracks2 := T.tracks.filterMap (fun tr =>
      if tr.disappeared + 1 > T.max_disappeared then none
      else some { tr with disappeared := tr.disappeared + 1 })
    ({ T with tracks := tracks2 }, tracks2.map (fun tr => (tr.id, tr.centroid)))
  else if T.tracks.isEmpty then
    let tracks2 := T.tracks ++ registerAll T.next_object_id detections
    ({ T with tracks := tracks2,
              next_object_id := T.next_object_id + detections.length },
     tracks2.map (fun tr => (tr.id, tr.centroid)))
  else
    let sorted := stableSortBy (fun p => ((p.2.2 : Int) : Rat))
      (trackerPairs T.tracks detections)
    let accepted := greedyAssign T.max_distance sorted
    let newDets := unmatchedDets detections accepted
    let tracks2 := applyMatches T.tracks detections accepted T.max_disappeared ++
      registerAll T.next_object_id newDets
    ({ T with tracks := tracks2,
              next_object_id := T.next_object_id + newDets.length },
     tracks2.map (fun tr => (tr.id, tr.centroid)))

/-- Modelled from the spec's words for the Tracker contract (spec §4.2 /
claim C6): one uniform pass — sort all candidate (track, detection) pairs by
ascending distance, greedily accept pairs whose sides are unconsumed and
whose distance is within the matching threshold, register every unmatched
detection as a new track with a fresh monotonically-assigned identity, and
increment (and drop past the disappearance threshold) every unmatched
existing track.  No special-casing of empty inputs. -/
def specTrackerUpdate (T : VehicleTracker) (detections : List Point) :
    VehicleTracker × List (Nat × Point) :=
  let sorted := stableSortBy (fun p => ((p.2.2 : Int) : Rat))
    (trackerPairs T.tracks detections)
  let accepted := greedyAssign T.max_distance sorted
  let newDets := unmatchedDets detections accepted
  let tracks2 := applyMatches T.tracks detections accepted T.max_disappeared ++
    registerAll T.next_object_id newDets
  ({ T with tracks := tracks2,
            next_object_id := T.next_object_id + newDets.length },
   tracks2.map (fun tr => (tr.id, tr.centroid)))

/-- Python `round` (banker's rounding, ties to even), on exact rationals. -/
def roundHalfEven (x : Rat) : Int :=
  let f := ⌊x⌋
  if x - (f : Rat) < 1 / 2 then f
  else if x - (f : Rat) > 1 / 2 then f + 1
  else if f % 2 = 0 then f else f + 1

/-- Python `round(x, n)` on exact rationals. -/
def roundTo (n : Nat) (x : Rat) : Rat :=
  (roundHalfEven (x * (10 ^ n : Nat)) : Rat) / ((10 ^ n : Nat) : Rat)

/-- One entry of the logger's `recent_detections` list
(real_time_logger.py lines 60-67; the wall-clock `time_string` display field
is omitted as pure formatting). -/
structure DetectionRecord where
  vehicle_id : Int
  class_name : String
  confidence : Rat
  timestamp : Rat
  frame_number : Int
  deriving DecidableEq

/-- One archived interval (real_time_logger.py lines 93-100; the
`start_time_string` display field is omitted as pure formatting). -/
structure IntervalData where
  start_time : Rat
  end_time : Rat
  duration_seconds : Rat
  vehicle_count : Nat
  cumulative_total : Nat
  deriving DecidableEq

/-- `RealTimeTrafficLogger` state (real_time_logger.py lines 21-44).  ISO
timestamp strings, the JSON snapshot file and the unused
`traffic_rate.current_interval` field are omitted; `time.time()` is made
explicit as the `now` component of each logged event. -/
structure LoggerState where
  total_vehicles : Nat
  vehicle_types : List (String × Nat)
  time_intervals : List IntervalData
  recent_detections : List DetectionRecord
  peak_interval : Nat
  vehicles_per_minute : Rat
  start_timestamp : Rat
  current_interval_start : Rat
  interval_duration : Rat
  current_interval_count : Nat
  deriving DecidableEq

/-- `RealTimeTrafficLogger.__init__` (lines 21-44), constructed at wall-clock
time `now`. -/
def mkLogger (now : Rat) : LoggerState :=
  { total_vehicles := 0
    vehicle_types := []
    time_intervals := []
    recent_detections := []
    peak_interval := 0
    vehicles_per_minute := 0
    start_timestamp := now
    current_interval_start := now
    interval_duration := 15
    current_interval_count := 0 }

/-- One call of `log_vehicle_detection`, with the wall-clock reading made
explicit. -/
structure LogEvent where
  now : Rat
  vehicle_id : Int
  vehicle_class : String
  confidence : Rat
  timestamp : Rat
  frame_number : Int
  deriving DecidableEq

/-- `RealTimeTrafficLogger._finalize_current_interval` (lines 91-110):
archive the current interval, update the peak count, and evict the oldest
archived interval once more than 50 are held. -/
def finalizeCurrentInterval (s : LoggerState) (now : Rat) : LoggerState :=
  let interval : IntervalData :=
    { start_time := s.current_interval_start
      end_time := now
      duration_seconds := s.interval_duration
      vehicle_count := s.current_interval_count
      cumulative_total := s.total_vehicles }
  let ti := s.time_intervals ++ [interval]
  { s with
    time_intervals := if ti.length > 50 then ti.tail else ti
    peak_interval :=
      if s.current_interval_count > s.peak_interval then s.current_interval_count
      else s.peak_interval }

/-- `RealTimeTrafficLogger._start_new_interval` (lines 112-116). -/
def startNewInterval (s : LoggerState) (now : Rat) : LoggerState :=
  { s with current_interval_start := now, current_interval_count := 0 }

/-- `RealTimeTrafficLogger.log_vehicle_detection` (lines 46-89): bump the
running totals and per-class counts, append to the recent-detections list
(evicting the oldest past 10 entries), bump the open interval's count, roll
the interval over when the 15-second window has elapsed, and refresh the
vehicles-per-minute rate. -/
def log_vehicle_detection (s : LoggerState) (e : LogEvent) : LoggerState :=
  let s1 := { s with
    total_vehicles := s.total_vehicles + 1
    vehicle_types := dictBump s.vehicle_types e.vehicle_class }
  let rec0 := s1.recent_detections ++
    [{ vehicle_id := e.vehicle_id, class_name := e.vehicle_class,
       confidence := roundTo 3 e.confidence, timestamp := e.timestamp,
       frame_number := e.frame_number }]
  let s2 := { s1 with
    recent_detections := if rec0.length > 10 then rec0.tail else rec0
    current_interval_count := s1.current_interval_count + 1 }
  let s3 :=
    if e.now - s2.current_interval_start ≥ s2.interval_duration then
      startNewInterval (finalizeCurrentInterval s2 e.now) e.now
    else s2
  if (e.now - s3.start_timestamp) / 60 > 0 then
    { s3 with vehicles_per_minute :=
        roundTo 2 ((s3.total_vehicles : Rat) / ((e.now - s3.start_timestamp) / 60)) }
  else s3

/-- Run the logger over a sequence of detection events. -/
def runLogger (s : LoggerState) (events : List LogEvent) : LoggerState :=
  events.foldl log_vehicle_detection s

/-- Reference variant of `_finalize_current_interval` with no eviction: the
full archive history is retained. -/
def finalizeCurrentIntervalU (s : LoggerState) (now : Rat) : LoggerState :=
  let interval : IntervalData :=
    { start_time := s.current_interval_start
      end_time := now
      duration_seconds := s.interval_duration
      vehicle_count := s.current_interval_count
      cumulative_total := s.total_vehicles }
  { s with
    time_intervals := s.time_intervals ++ [interval]
    peak_interval :=
      if s.current_interval_count > s.peak_interval then s.current_interval_count
      else s.peak_interval }

/-- Reference variant of `log_vehicle_detection` with no eviction on either
bounded list (used to state that the real logger keeps exactly the most
recent entries, evicting the oldest first). -/
def logVehicleDetectionU (s : LoggerState) (e : LogEvent) : LoggerState :=
  let s1 := { s with
    total_vehicles := s.total_vehicles + 1
    vehicle_types := dictBump s.vehicle_types e.vehicle_class }
  let rec0 := s1.recent_detections ++
    [{ vehicle_id := e.vehicle_id, class_name := e.vehicle_class,
       confidence := roundTo 3 e.confidence, timestamp := e.timestamp,
       frame_number := e.frame_number }]
  let s2 := { s1 with
    recent_detections := rec0
    current_interval_count := s1.current_interval_count + 1 }
  let s3 :=
    if e.now - s2.current_interval_start ≥ s2.interval_duration then
      startNewInterval (finalizeCurrentIntervalU s2 e.now) e.now
    else s2
  if (e.now - s3.start_timestamp) / 60 > 0 then
    { s3 with vehicles_per_minute :=
        roundTo 2 ((s3.total_vehicles : Rat) / ((e.now - s3.start_timestamp) / 60)) }
  else s3

/-- Run the no-eviction reference logger. -/
def runLoggerU (s : LoggerState) (events : List LogEvent) : LoggerState :=
  events.foldl logVehicleDetectionU s

/-- Simulation relation between the real logger state and the no-eviction
reference state: all scalar fields agree and the two bounded lists are the
most recent 10 (resp. 50) entries of the reference's full histories. -/
def LoggerSim (s u : LoggerState) : Prop :=
  s.total_vehicles = u.total_vehicles ∧
  s.vehicle_types = u.vehicle_types ∧
  s.peak_interval = u.peak_interval ∧
  s.vehicles_per_minute = u.vehicles_per_minute ∧
  s.start_timestamp = u.start_timestamp ∧
  s.current_interval_start = u.current_interval_start ∧
  s.interval_duration = u.interval_duration ∧
  s.current_interval_count = u.current_interval_count ∧
  s.recent_detections = lastN 10 u.recent_detections ∧
  s.time_intervals = lastN 50 u.time_intervals

/-
  Concrete scenario data used by the counterexample / evaluation theorems and
  witnesses below.
-/

/-- A 10x10 axis-aligned square detection zone. -/
def squareZone : List Point := [(0, 0), (10, 0), (10, 10), (0, 10)]

/-- A detection record for identity `i` at centroid `c` and time `t`. -/
def mkDet (i : Int) (c : Point) (t : Rat) : VehicleDetection :=
  { id := i, class_name := "car", confidence := 9 / 10, bbox := (0, 0, 0, 0),
    centroid := c, timestamp := t, frame_number := 7 }

/-- First loop registered under the name "north". -/
def loopNorthA : VirtualInductiveLoop :=
  mkVirtualInductiveLoop "north" [(0, 0), (10, 0), (10, 10)] "both"

/-- A different loop that reuses the name "north". -/
def loopNorthB : VirtualInductiveLoop :=
  mkVirtualInductiveLoop "north" [(50, 50), (60, 50), (60, 60)] "entry"

/-- A single recorded crossing at timestamp 10. -/
def crossingAtTen : LoopCrossing :=
  { vehicle_id := 1, loop_name := "north", class_name := "car",
    confidence := 9 / 10, timestamp := 10, frame_number := 7,
    direction := "entry", centroid := (5, 5) }

/-- A loop system whose full history is the single crossing at t = 10. -/
def singleCrossingSystem : VirtualLoopSystem :=
  { mkVirtualLoopSystem "loc" with all_crossings := [crossingAtTen] }

/-- A loop built from a degenerate 2-point polygon and an invalid direction
token. -/
def degenerateLoop : VirtualInductiveLoop :=
  mkVirtualInductiveLoop "bad" [(0, 0), (10, 0)] "sideways"

/-- A default tracker holding one track (id 0) at the origin, obtained by
registering a single detection. -/
def trackerAfterFirst : VehicleTracker :=
  (trackerUpdate mkVehicleTracker [((0 : Int), (0 : Int))]).1

/-- A "both"-direction square loop that has last seen identity 1 outside the
zone. -/
def ditherLoop : VirtualInductiveLoop :=
  { mkVirtualInductiveLoop "z" squareZone "both" with
    previous_positions := [(1, (20, 5))] }

/-- A dithering call sequence for identity 1: entry at t = 0, exit at
t = 0.3, entry again at t = 0.6 — every consecutive boundary transition is
separated by 0.3 s, less than the 0.5 s cooldown window. -/
def ditherCalls : List (Point × VehicleDetection) :=
  [((5, 5), mkDet 1 (5, 5) 0),
   ((20, 5), mkDet 1 (20, 5) (3 / 10)),
   ((5, 5), mkDet 1 (5, 5) (6 / 10))]

/-- An "entry"-only square loop that has last seen identity 1 inside the
zone. -/
def entryOnlyLoop : VirtualInductiveLoop :=
  { mkVirtualInductiveLoop "e" squareZone "entry" with
    previous_positions := [(1, (5, 5))] }

/-- A "both"-direction square loop where identity 1 was counted at t = 0 and
is currently outside the zone. -/
def cooldownLoop : VirtualInductiveLoop :=
  { mkVirtualInductiveLoop "c" squareZone "both" with
    previous_positions := [(1, (20, 5))],
    counted_vehicles := [(1, 0)] }

/-- A "both"-direction square loop that has last seen identities 1 and 2
outside the zone, with empty duplicate-suppression caches. -/
def twoVehicleLoop : VirtualInductiveLoop :=
  { mkVirtualInductiveLoop "s" squareZone "both" with
    previous_positions := [(1, (20, 5)), (2, (20, 6))] }

/-
  Helper lemmas.
-/

theorem dictLookup_dictInsert_self {κ α : Type} [DecidableEq κ]
    (l : List (κ × α)) (k : κ) (v : α) :
    dictLookup (dictInsert l k v) k = some v := by
  induction l with
  | nil => simp [dictInsert, dictLookup]
  | cons h t ih =>
      obtain ⟨k0, v0⟩ := h
      by_cases hk : k0 = k <;> simp [dictInsert, dictLookup, hk, ih]

theorem dictLookup_filter_of_some {κ α : Type} [DecidableEq κ]
    (p : κ × α → Bool) (l : List (κ × α)) (k : κ) (v : α)
    (hl : dictLookup l k = some v) (hp : p (k, v) = true) :
    dictLookup (l.filter p) k = some v := by
  induction l with
  | nil => simp [dictLookup] at hl
  | cons h t ih =>
      obtain ⟨k0, v0⟩ := h
      by_cases hk : k0 = k
      · subst hk
        simp [dictLookup] at hl
        subst hl
        simp [List.filter, hp, dictLookup]
      · simp only [dictLookup, if_neg hk] at hl
        by_cases hpk : p (k0, v0) = true
        · simp [List.filter, hpk, dictLookup, hk, ih hl]
        · simp only [Bool.not_eq_true] at hpk
          simp [List.filter, hpk, ih hl]

theorem dictLookup_filter_of_none {κ α : Type} [DecidableEq κ]
    (p : κ × α → Bool) (l : List (κ × α)) (k : κ)
    (hl : dictLookup l k = none) :
    dictLookup (l.filter p) k = none := by
  induction l with
  | nil => simp [dictLookup]
  | cons h t ih =>
      obtain ⟨k0, v0⟩ := h
      by_cases hk : k0 = k
      · simp [dictLookup, hk] at hl
      · simp only [dictLookup, if_neg hk] at hl
        by_cases hpk : p (k0, v0) = true
        · simp [List.filter, hpk, dictLookup, hk, ih hl]
        · simp only [Bool.not_eq_true] at hpk
          simp [List.filter, hpk, ih hl]

theorem lastN_length_le {α : Type} (n : Nat) (l : List α) :
    (lastN n l).length ≤ n := by
  simp only [lastN, List.length_drop]
  omega

theorem lastN_of_length_le {α : Type} (n : Nat) (l : List α)
    (h : l.length ≤ n) : lastN n l = l := by
  simp only [lastN]
  have : l.length - n = 0 := by omega
  simp [this]

theorem lastN_cap_append {α : Type} (n : Nat) (hn : 0 < n) (l : List α) (x : α) :
    (if (lastN n l ++ [x]).length > n then (lastN n l ++ [x]).tail
     else lastN n l ++ [x]) = lastN n (l ++ [x]) := by
  by_cases hc : l.length < n
  · rw [lastN_of_length_le n l (by omega)]
    have hlen : ¬ (l ++ [x]).length > n := by
      simp [List.length_append]; omega
    rw [if_neg hlen, lastN_of_length_le n (l ++ [x]) (by simp; omega)]
  · push_neg at hc
    have hlenl : (lastN n l).length = n := by
      simp only [lastN, List.length_drop]; omega
    have hgt : (lastN n l ++ [x]).length > n := by
      simp [List.length_append, hlenl]
    rw [if_pos hgt]
    have hne : lastN n l ≠ [] := by
      intro h
      rw [h] at hlenl
      simp at hlenl
      omega
    rw [List.tail_append_of_ne_nil hne]
    simp only [lastN, List.tail_drop]
    rw [List.drop_append_eq_append_drop]
    have h1 : l.length - n + 1 = (l ++ [x]).length - n := by
      simp [List.length_append]; omega
    have h2 : (l ++ [x]).length - n - l.length = 0 := by
      simp [List.length_append]; omega
    rw [h2, h1]
    simp

theorem enumFrom_filterMap_snd {α β : Type} (g : α → Option β) :
    ∀ (n : Nat) (l : List α),
      (List.enumFrom n l).filterMap (fun p => g p.2) = l.filterMap g := by
  intro n l
  induction l generalizing n with
  | nil => rfl
  | cons h t ih =>
      simp only [List.enumFrom, List.filterMap_cons]
      rw [ih]

theorem flatten_map_const_nil {α β : Type} (l : List α) :
    (l.map (fun _ => ([] : List β))).flatten = [] := by
  induction l with
  | nil => rfl
  | cons h t ih => simp [ih]

/-
  Claim theorems.
-/

/-- C1: registering a second Loop under an already-used name is not rejected:
`add_loop` silently replaces the existing Loop (last write wins) and surfaces
no error to the caller, contradicting the claim that duplicate names are a
configuration error. -/
theorem C1_add_loop_silently_replaces :
    loopNorthA ≠ loopNorthB ∧
      (add_loop (add_loop (mkVirtualLoopSystem "loc") loopNorthA) loopNorthB).loops
        = [("north", loopNorthB)] := by
  constructor
  · with_unfolding_all decide
  · with_unfolding_all decide

/-- C2: `get_traffic_counts` over a history holding a single crossing at
t = 10 with interval 15 returns the empty list, not one bucket [10, 25)
containing the crossing: the bucket loop runs only while the bucket start is
strictly before the last timestamp, which fails when the first and last
timestamps coincide. -/
theorem C2_single_crossing_yields_no_bucket :
    singleCrossingSystem.all_crossings = [crossingAtTen] ∧
      crossingAtTen.timestamp = 10 ∧
      get_traffic_counts singleCrossingSystem 15 = [] := by
  refine ⟨rfl, rfl, ?_⟩
  with_unfolding_all decide

/-- C4: the point-in-zone test on a degenerate polygon with fewer than 3
points does not return false for every point: a point lying on the 2-point
contour is reported on the boundary by the polygon test (result 0) and hence
classified inside. -/
theorem C4_degenerate_polygon_not_always_false :
    degenerateLoop.zone_points.length < 3 ∧
      pointPolygonTest degenerateLoop.zone_points (5, 0) = 0 ∧
      is_point_in_zone degenerateLoop (5, 0) = true := by
  refine ⟨by decide, by decide, by decide⟩

/-- C5: a Loop built from a degenerate 2-point polygon and a direction token
outside {entry, exit, both} is accepted unchanged by the constructor and then
registered by `add_loop` with no error: registration-time validation does not
exist in the code. -/
theorem C5_invalid_configuration_accepted :
    degenerateLoop.zone_points.length = 2 ∧
      degenerateLoop.direction = "sideways" ∧
      (add_loop (mkVirtualLoopSystem "loc") degenerateLoop).loops
        = [("bad", degenerateLoop)] := by
  refine ⟨rfl, rfl, ?_⟩
  with_unfolding_all decide

/-- C6 counterexample: the default max-match-distance is 100 px, not 80 px as
claimed — a default-constructed tracker matches a detection 90 px away from
an existing track (under an 80 px default it would instead have spawned a
fresh track with id 1). -/
theorem C6_default_counterexample :
    mkVehicleTracker.max_distance = 100 ∧
      ¬ mkVehicleTracker.max_distance = 80 ∧
      (trackerUpdate trackerAfterFirst [((90 : Int), (0 : Int))]).2
        = [(0, ((90 : Int), (0 : Int)))] ∧
      (trackerUpdate trackerAfterFirst [((90 : Int), (0 : Int))]).1.next_object_id = 1 := by
  refine ⟨rfl, by with_unfolding_all decide, by with_unfolding_all decide,
    by with_unfolding_all decide⟩

/-- C7 counterexample: with the default 0.5 s cooldown, a single vehicle
whose centroid dithers across the boundary every 0.3 s — each consecutive
transition faster than the cooldown window — is counted twice: the exit at
t = 0.3 is suppressed but does not refresh the cooldown, so the re-entry at
t = 0.6 is 0.6 s after the first count and is recorded again. -/
theorem C7_dither_counterexample :
    ditherLoop.cooldown_seconds = 1 / 2 ∧
      (3 / 10 : Rat) - 0 < 1 / 2 ∧
      (6 / 10 : Rat) - 3 / 10 < 1 / 2 ∧
      (runCheckCrossings ditherLoop 1 ditherCalls).crossings.length = 2 := by
  refine ⟨rfl, by with_unfolding_all decide, by with_unfolding_all decide, ?_⟩
  with_unfolding_all decide

/-- Every `check_crossing` call either returns no crossing and stores the
current centroid as the identity's previous position, or returns a crossing
and leaves the previous-positions map untouched. -/
theorem check_crossing_prev_shape (L : VirtualInductiveLoop) (vid : Int)
    (cur : Point) (vd : VehicleDetection) :
    ((check_crossing L vid cur vd).2 = none ∧
      (check_crossing L vid cur vd).1.previous_positions
        = dictInsert L.previous_positions vid cur) ∨
    ((check_crossing L vid cur vd).2.isSome = true ∧
      (check_crossing L vid cur vd).1.previous_positions
        = L.previous_positions) := by
  unfold check_crossing
  split
  next prev hl =>
    dsimp only
    repeat' split
    all_goals simp
  next hl => simp

/-- C10: on the acceptance path of `check_crossing` (a crossing is created
and returned) the stored previous position of the identity is not updated —
the map is unchanged, still holding the pre-crossing centroid; the previous
position is set to the current centroid exactly on the paths that return no
crossing. -/
theorem C10_previous_position_update (L : VirtualInductiveLoop) (vid : Int)
    (cur : Point) (vd : VehicleDetection) :
    ((check_crossing L vid cur vd).2.isSome = true →
      (check_crossing L vid cur vd).1.previous_positions
        = L.previous_positions) ∧
    ((check_crossing L vid cur vd).2 = none →
      (check_crossing L vid cur vd).1.previous_positions
        = dictInsert L.previous_positions vid cur) := by
  rcases check_crossing_prev_shape L vid cur vd with ⟨h1, h2⟩ | ⟨h1, h2⟩
  · exact ⟨fun hs => by rw [h1] at hs; simp at hs, fun _ => h2⟩
  · refine ⟨fun _ => h2, fun hn => ?_⟩
    rw [hn] at h1
    simp at h1

/-- C10 witness: a concrete acceptance (identity 1 entering the square zone)
leaves the previous-positions map untouched, and a concrete no-crossing call
(unknown identity 3) stores the current centroid. -/
theorem C10_witness :
    (check_crossing twoVehicleLoop 1 (5, 5) (mkDet 1 (5, 5) 0)).1.previous_positions
        = twoVehicleLoop.previous_positions ∧
    (check_crossing twoVehicleLoop 3 (7, 7) (mkDet 3 (7, 7) 0)).1.previous_positions
        = dictInsert twoVehicleLoop.previous_positions 3 (7, 7) := by
  constructor
  · exact (C10_previous_position_update twoVehicleLoop 1 (5, 5) (mkDet 1 (5, 5) 0)).1
      (by with_unfolding_all decide)
  · exact (C10_previous_position_update twoVehicleLoop 3 (7, 7) (mkDet 3 (7, 7) 0)).2
      (by with_unfolding_all decide)

/-- Acceptance path of `check_crossing` for an entry transition: with a known
previous position outside the zone, current centroid inside, a direction
policy admitting entries, no identity-cooldown hit and no spatial-cooldown
hit, the call records exactly the expected crossing and leaves the
previous-positions map untouched. -/
theorem check_crossing_accept_entry (L : VirtualInductiveLoop) (vid : Int)
    (cur : Point) (vd : VehicleDetection) (prev : Point)
    (hl : dictLookup L.previous_positions vid = some prev)
    (hpo : is_point_in_zone L prev = false)
    (hci : is_point_in_zone L cur = true)
    (hdir : L.direction = "both" ∨ L.direction = "entry")
    (hcnt : dictLookup (L.counted_vehicles.filter
      (fun cv => decide (vd.timestamp - cv.2 < L.cooldown_seconds))) vid = none)
    (hsp : (L.recent_crossings.filter
      (fun rc => decide (vd.timestamp - rc.2 < L.cooldown_seconds))).any
        (fun rc => decide (sqDist cur rc.1 < 50 ^ 2)) = false) :
    check_crossing L vid cur vd =
      ({ L with
          crossings := L.crossings ++ [mkLoopCrossing L.name vid cur vd "entry"],
          counted_vehicles := dictInsert (L.counted_vehicles.filter
            (fun cv => decide (vd.timestamp - cv.2 < L.cooldown_seconds))) vid vd.timestamp,
          recent_crossings := (L.recent_crossings.filter
            (fun rc => decide (vd.timestamp - rc.2 < L.cooldown_seconds))) ++
              [(cur, vd.timestamp)] },
       some (mkLoopCrossing L.name vid cur vd "entry")) := by
  unfold check_crossing
  split
  next p hp =>
    rw [hl] at hp
    injection hp with hp
    subst hp
    dsimp only
    simp only [hpo, hci, hcnt, hsp]
    rcases hdir with h | h <;> simp [h, mkLoopCrossing]
  next hp =>
    rw [hl] at hp
    try simp at hp

/-- Acceptance of an entry transition, stated on the returned crossing only:
under the same hypotheses as `check_crossing_accept_entry`, the call returns
some crossing. -/
theorem check_crossing_accepts_isSome (L : VirtualInductiveLoop) (vid : Int)
    (cur : Point) (vd : VehicleDetection) (prev : Point)
    (hl : dictLookup L.previous_positions vid = some prev)
    (hpo : is_point_in_zone L prev = false)
    (hci : is_point_in_zone L cur = true)
    (hdir : L.direction = "both" ∨ L.direction = "entry")
    (hcnt : dictLookup (L.counted_vehicles.filter
      (fun cv => decide (vd.timestamp - cv.2 < L.cooldown_seconds))) vid = none)
    (hsp : (L.recent_crossings.filter
      (fun rc => decide (vd.timestamp - rc.2 < L.cooldown_seconds))).any
        (fun rc => decide (sqDist cur rc.1 < 50 ^ 2)) = false) :
    ((check_crossing L vid cur vd).2).isSome = true := by
  rw [check_crossing_accept_entry L vid cur vd prev hl hpo hci hdir hcnt hsp]
  rfl

/-- Direction filter of `check_crossing`: an exit transition on a loop whose
policy is neither "both" nor "exit" is discarded — no crossing, caches
pruned, and the membership state updated to the current centroid. -/
theorem check_crossing_filtered_exit (L : VirtualInductiveLoop) (vid : Int)
    (cur : Point) (vd : VehicleDetection) (prev : Point)
    (hl : dictLookup L.previous_positions vid = some prev)
    (hpi : is_point_in_zone L prev = true)
    (hco : is_point_in_zone L cur = false)
    (hnb : L.direction ≠ "both")
    (hnx : L.direction ≠ "exit") :
    check_crossing L vid cur vd =
      ({ L with
          counted_vehicles := L.counted_vehicles.filter
            (fun cv => decide (vd.timestamp - cv.2 < L.cooldown_seconds)),
          recent_crossings := L.recent_crossings.filter
            (fun rc => decide (vd.timestamp - rc.2 < L.cooldown_seconds)),
          previous_positions := dictInsert L.previous_positions vid cur },
       none) := by
  unfold check_crossing
  split
  next p hp =>
    rw [hl] at hp
    injection hp with hp
    subst hp
    dsimp only
    simp only [hpi, hco]
    simp [hnb, hnx]
  next hp =>
    rw [hl] at hp
    try simp at hp

/-- Spatial cooldown of `check_crossing`: a qualifying entry transition whose
centroid lies within 50 px of a recent crossing still inside the cooldown
window is suppressed — no crossing, caches pruned, membership updated. -/
theorem check_crossing_spatial_suppressed (L : VirtualInductiveLoop) (vid : Int)
    (cur : Point) (vd : VehicleDetection) (prev : Point)
    (hl : dictLookup L.previous_positions vid = some prev)
    (hpo : is_point_in_zone L prev = false)
    (hci : is_point_in_zone L cur = true)
    (hdir : L.direction = "both" ∨ L.direction = "entry")
    (hcnt : dictLookup (L.counted_vehicles.filter
      (fun cv => decide (vd.timestamp - cv.2 < L.cooldown_seconds))) vid = none)
    (hsp : (L.recent_crossings.filter
      (fun rc => decide (vd.timestamp - rc.2 < L.cooldown_seconds))).any
        (fun rc => decide (sqDist cur rc.1 < 50 ^ 2)) = true) :
    check_crossing L vid cur vd =
      ({ L with
          counted_vehicles := L.counted_vehicles.filter
            (fun cv => decide (vd.timestamp - cv.2 < L.cooldown_seconds)),
          recent_crossings := L.recent_crossings.filter
            (fun rc => decide (vd.timestamp - rc.2 < L.cooldown_seconds)),
          previous_positions := dictInsert L.previous_positions vid cur },
       none) := by
  unfold check_crossing
  split
  next p hp =>
    rw [hl] at hp
    injection hp with hp
    subst hp
    dsimp only
    simp only [hpo, hci, hcnt, hsp]
    rcases hdir with h | h <;> simp [h]
  next hp =>
    rw [hl] at hp
    try simp at hp

/-- Identity cooldown of `check_crossing`: while the identity is still in the
cooldown map within the window, a call never records a crossing, the cooldown
entry survives the pruning, and the cooldown width is unchanged. -/
theorem check_crossing_counted_invariant (L : VirtualInductiveLoop) (vid : Int)
    (cur : Point) (vd : VehicleDetection) (t0 : Rat)
    (hc : dictLookup L.counted_vehicles vid = some t0)
    (hw : vd.timestamp - t0 < L.cooldown_seconds) :
    (check_crossing L vid cur vd).2 = none ∧
    (check_crossing L vid cur vd).1.crossings = L.crossings ∧
    dictLookup (check_crossing L vid cur vd).1.counted_vehicles vid = some t0 ∧
    (check_crossing L vid cur vd).1.cooldown_seconds = L.cooldown_seconds := by
  have hcf : dictLookup (L.counted_vehicles.filter
      (fun cv => decide (vd.timestamp - cv.2 < L.cooldown_seconds))) vid = some t0 :=
    dictLookup_filter_of_some _ _ _ _ hc (by simpa using hw)
  unfold check_crossing
  split
  next p hp =>
    dsimp only
    repeat' split
    all_goals simp_all [hcf]
  next hp => simp [hcf]

/-- Running any sequence of calls for an identity that is in the cooldown
map, with every call's timestamp within the cooldown window of the recorded
count, leaves the crossing history unchanged. -/
theorem run_within_cooldown (vid : Int) (t0 : Rat) :
    ∀ (calls : List (Point × VehicleDetection)) (L : VirtualInductiveLoop),
      dictLookup L.counted_vehicles vid = some t0 →
      (∀ pc ∈ calls, pc.2.timestamp - t0 < L.cooldown_seconds) →
      (runCheckCrossings L vid calls).crossings = L.crossings := by
  intro calls
  induction calls with
  | nil => intro L _ _; rfl
  | cons pc rest ih =>
      intro L hc hw
      obtain ⟨c, vd⟩ := pc
      have hstep := check_crossing_counted_invariant L vid c vd t0 hc
        (hw (c, vd) (List.mem_cons_self _ _))
      have hrest := ih (check_crossing L vid c vd).1 hstep.2.2.1
        (fun p hp => by
          rw [hstep.2.2.2]
          exact hw p (List.mem_cons_of_mem _ hp))
      calc (runCheckCrossings L vid ((c, vd) :: rest)).crossings
          = (runCheckCrossings (check_crossing L vid c vd).1 vid rest).crossings := rfl
        _ = (check_crossing L vid c vd).1.crossings := hrest
        _ = L.crossings := hstep.2.1

/-- C3: a transition that does not match the Loop's direction policy (here an
INSIDE→OUTSIDE transition on an "entry"-only zone) never produces a Crossing,
yet the stored membership state for the identity is still updated to the
current centroid, so a subsequent qualifying OUTSIDE→INSIDE transition of the
same identity is detected. -/
theorem C3_filtered_transition_state_update (L : VirtualInductiveLoop)
    (vid : Int) (prev cur cur2 : Point) (vd vd2 : VehicleDetection)
    (hl : dictLookup L.previous_positions vid = some prev)
    (hpi : is_point_in_zone L prev = true)
    (hco : is_point_in_zone L cur = false)
    (hdir : L.direction = "entry")
    (hci2 : is_point_in_zone L cur2 = true)
    (hcnt : dictLookup L.counted_vehicles vid = none)
    (hsp : ∀ rc ∈ L.recent_crossings, ¬ sqDist cur2 rc.1 < 50 ^ 2) :
    (check_crossing L vid cur vd).2 = none ∧
    dictLookup (check_crossing L vid cur vd).1.previous_positions vid = some cur ∧
    ((check_crossing (check_crossing L vid cur vd).1 vid cur2 vd2).2).isSome = true := by
  have hnb : L.direction ≠ "both" := by rw [hdir]; decide
  have hnx : L.direction ≠ "exit" := by rw [hdir]; decide
  have h1 := check_crossing_filtered_exit L vid cur vd prev hl hpi hco hnb hnx
  refine ⟨by rw [h1], ?_, ?_⟩
  · rw [h1]
    exact dictLookup_dictInsert_self _ _ _
  · have hl2 : dictLookup (check_crossing L vid cur vd).1.previous_positions vid
        = some cur := by
      rw [h1]
      exact dictLookup_dictInsert_self _ _ _
    have hpo2 : is_point_in_zone (check_crossing L vid cur vd).1 cur = false := by
      rw [h1]; exact hco
    have hci2b : is_point_in_zone (check_crossing L vid cur vd).1 cur2 = true := by
      rw [h1]; exact hci2
    have hdir2 : (check_crossing L vid cur vd).1.direction = "both" ∨
        (check_crossing L vid cur vd).1.direction = "entry" := by
      rw [h1]; exact Or.inr hdir
    have hcnt2 : dictLookup ((check_crossing L vid cur vd).1.counted_vehicles.filter
        (fun cv => decide (vd2.timestamp - cv.2 <
          (check_crossing L vid cur vd).1.cooldown_seconds))) vid = none := by
      rw [h1]
      exact dictLookup_filter_of_none _ _ _ (dictLookup_filter_of_none _ _ _ hcnt)
    have hsp2 : ((check_crossing L vid cur vd).1.recent_crossings.filter
        (fun rc => decide (vd2.timestamp - rc.2 <
          (check_crossing L vid cur vd).1.cooldown_seconds))).any
            (fun rc => decide (sqDist cur2 rc.1 < 50 ^ 2)) = false := by
      rw [h1]
      rw [List.any_eq_false]
      intro rc hm
      have hmem : rc ∈ L.recent_crossings :=
        (List.mem_filter.mp (List.mem_filter.mp hm).1).1
      simpa using hsp rc hmem
    exact check_crossing_accepts_isSome (check_crossing L vid cur vd).1 vid cur2 vd2
      cur hl2 hpo2 hci2b hdir2 hcnt2 hsp2

/-- C3 witness: on the concrete entry-only square loop that last saw identity
1 inside the zone, a detection at (20,5) (outside) produces no Crossing but
updates the membership state, and a subsequent detection at (5,5) (inside) is
detected as an entry. -/
theorem C3_witness :
    (check_crossing entryOnlyLoop 1 (20, 5) (mkDet 1 (20, 5) 0)).2 = none ∧
    dictLookup (check_crossing entryOnlyLoop 1 (20, 5)
      (mkDet 1 (20, 5) 0)).1.previous_positions 1 = some (20, 5) ∧
    ((check_crossing (check_crossing entryOnlyLoop 1 (20, 5) (mkDet 1 (20, 5) 0)).1
      1 (5, 5) (mkDet 1 (5, 5) (1 / 10))).2).isSome = true :=
  C3_filtered_transition_state_update entryOnlyLoop 1 (5, 5) (20, 5) (5, 5)
    (mkDet 1 (20, 5) 0) (mkDet 1 (5, 5) (1 / 10))
    (by with_unfolding_all decide) (by with_unfolding_all decide)
    (by with_unfolding_all decide) rfl (by with_unfolding_all decide)
    rfl (by simp [entryOnlyLoop, mkVirtualInductiveLoop])

/-- C7 (amended): while an identity sits in the Loop's cooldown map within
the cooldown window, any call for it is suppressed — no Crossing, but the
membership state is still updated to the current centroid; consequently, once
an identity has been counted at time t0, no further Crossing is recorded over
any sequence of calls whose timestamps all lie within the cooldown window of
t0 (suppressed transitions do not refresh the cooldown, so the guarantee is
relative to the recorded crossing's time, not to the last dither). -/
theorem C7_identity_cooldown_amended :
    (∀ (L : VirtualInductiveLoop) (vid : Int) (cur : Point)
        (vd : VehicleDetection) (t0 : Rat),
      dictLookup L.counted_vehicles vid = some t0 →
      vd.timestamp - t0 < L.cooldown_seconds →
      (check_crossing L vid cur vd).2 = none ∧
      dictLookup (check_crossing L vid cur vd).1.previous_positions vid
        = some cur) ∧
    (∀ (L : VirtualInductiveLoop) (vid : Int) (t0 : Rat)
        (calls : List (Point × VehicleDetection)),
      dictLookup L.counted_vehicles vid = some t0 →
      (∀ pc ∈ calls, pc.2.timestamp - t0 < L.cooldown_seconds) →
      (runCheckCrossings L vid calls).crossings = L.crossings) := by
  constructor
  · intro L vid cur vd t0 hc hw
    have h := check_crossing_counted_invariant L vid cur vd t0 hc hw
    refine ⟨h.1, ?_⟩
    rcases check_crossing_prev_shape L vid cur vd with ⟨_, h2⟩ | ⟨h1, _⟩
    · rw [h2]
      exact dictLookup_dictInsert_self _ _ _
    · rw [h.1] at h1
      simp at h1
  · intro L vid t0 calls hc hw
    exact run_within_cooldown vid t0 calls L hc hw

/-- C7 witness: on the concrete loop where identity 1 was counted at t = 0, a
qualifying entry at t = 0.3 is suppressed but updates membership, and a
three-call dither sequence at t = 0.1, 0.3, 0.45 (all within the 0.5 s
window) records no crossing at all. -/
theorem C7_witness :
    ((check_crossing cooldownLoop 1 (5, 5) (mkDet 1 (5, 5) (3 / 10))).2 = none ∧
      dictLookup (check_crossing cooldownLoop 1 (5, 5)
        (mkDet 1 (5, 5) (3 / 10))).1.previous_positions 1 = some (5, 5)) ∧
    (runCheckCrossings cooldownLoop 1
      [((5, 5), mkDet 1 (5, 5) (1 / 10)), ((20, 5), mkDet 1 (20, 5) (3 / 10)),
       ((5, 5), mkDet 1 (5, 5) (45 / 100))]).crossings
      = cooldownLoop.crossings :=
  ⟨C7_identity_cooldown_amended.1 cooldownLoop 1 (5, 5) (mkDet 1 (5, 5) (3 / 10)) 0
      (by with_unfolding_all decide) (by with_unfolding_all decide),
   C7_identity_cooldown_amended.2 cooldownLoop 1 0 _
      (by with_unfolding_all decide) (by with_unfolding_all decide)⟩

/-- C8: two distinct identities making qualifying entry crossings of the same
zone (starting from empty duplicate-suppression caches): the first always
produces a Crossing; if the second arrives at least a cooldown window later
it also produces a Crossing; if it arrives within the cooldown window and
within the 50-pixel radius of the first recorded crossing's centroid, it is
suppressed. -/
theorem C8_spatial_cooldown (L : VirtualInductiveLoop) (id1 id2 : Int)
    (q1 q2 c1 c2 : Point) (vd1 vd2 : VehicleDetection)
    (hneq : id1 ≠ id2)
    (hdir : L.direction = "both")
    (hcnt0 : L.counted_vehicles = [])
    (hrec0 : L.recent_crossings = [])
    (hq1 : dictLookup L.previous_positions id1 = some q1)
    (hq2 : dictLookup L.previous_positions id2 = some q2)
    (hq1o : is_point_in_zone L q1 = false)
    (hc1i : is_point_in_zone L c1 = true)
    (hq2o : is_point_in_zone L q2 = false)
    (hc2i : is_point_in_zone L c2 = true) :
    ((check_crossing L id1 c1 vd1).2).isSome = true ∧
    (L.cooldown_seconds ≤ vd2.timestamp - vd1.timestamp →
      ((check_crossing (check_crossing L id1 c1 vd1).1 id2 c2 vd2).2).isSome
        = true) ∧
    (vd2.timestamp - vd1.timestamp < L.cooldown_seconds →
      sqDist c2 c1 < 50 ^ 2 →
      (check_crossing (check_crossing L id1 c1 vd1).1 id2 c2 vd2).2 = none) := by
  have hcnt1 : dictLookup (L.counted_vehicles.filter
      (fun cv => decide (vd1.timestamp - cv.2 < L.cooldown_seconds))) id1 = none := by
    rw [hcnt0]; rfl
  have hsp1 : (L.recent_crossings.filter
      (fun rc => decide (vd1.timestamp - rc.2 < L.cooldown_seconds))).any
        (fun rc => decide (sqDist c1 rc.1 < 50 ^ 2)) = false := by
    rw [hrec0]; rfl
  have hacc := check_crossing_accept_entry L id1 c1 vd1 q1 hq1 hq1o hc1i
    (Or.inl hdir) hcnt1 hsp1
  have hfirst : ((check_crossing L id1 c1 vd1).2).isSome = true := by
    rw [hacc]; rfl
  have hcounted1 : (check_crossing L id1 c1 vd1).1.counted_vehicles
      = [(id1, vd1.timestamp)] := by
    rw [hacc]
    simp [hcnt0, dictInsert]
  have hrecent1 : (check_crossing L id1 c1 vd1).1.recent_crossings
      = [(c1, vd1.timestamp)] := by
    rw [hacc]
    simp [hrec0]
  have hprev1 : (check_crossing L id1 c1 vd1).1.previous_positions
      = L.previous_positions := by
    rw [hacc]
  have hcool1 : (check_crossing L id1 c1 vd1).1.cooldown_seconds
      = L.cooldown_seconds := by
    rw [hacc]
  have hzone2 : is_point_in_zone (check_crossing L id1 c1 vd1).1 q2 = false := by
    rw [hacc]; exact hq2o
  have hzone2c : is_point_in_zone (check_crossing L id1 c1 vd1).1 c2 = true := by
    rw [hacc]; exact hc2i
  have hdir1 : (check_crossing L id1 c1 vd1).1.direction = "both" := by
    rw [hacc]; exact hdir
  have hl2 : dictLookup (check_crossing L id1 c1 vd1).1.previous_positions id2
      = some q2 := by rw [hprev1]; exact hq2
  have hcnt2 : ∀ (t : Rat) (cd : Rat), dictLookup
      ((check_crossing L id1 c1 vd1).1.counted_vehicles.filter
        (fun cv => decide (t - cv.2 < cd))) id2 = none := by
    intro t cd
    apply dictLookup_filter_of_none
    rw [hcounted1]
    simp [dictLookup, hneq]
  refine ⟨hfirst, ?_, ?_⟩
  · intro hA
    have hsp2 : ((check_crossing L id1 c1 vd1).1.recent_crossings.filter
        (fun rc => decide (vd2.timestamp - rc.2 <
          (check_crossing L id1 c1 vd1).1.cooldown_seconds))).any
          (fun rc => decide (sqDist c2 rc.1 < 50 ^ 2)) = false := by
      rw [hrecent1, hcool1]
      have hdrop : decide (vd2.timestamp - vd1.timestamp < L.cooldown_seconds)
          = false := decide_eq_false (not_lt.mpr hA)
      simp [List.filter, hdrop]
    exact check_crossing_accepts_isSome (check_crossing L id1 c1 vd1).1 id2 c2 vd2
      q2 hl2 hzone2 hzone2c (Or.inl hdir1)
      (hcnt2 vd2.timestamp (check_crossing L id1 c1 vd1).1.cooldown_seconds) hsp2
  · intro hB1 hB2
    have hkeep : decide (vd2.timestamp - vd1.timestamp < L.cooldown_seconds)
        = true := decide_eq_true hB1
    have hsp2 : ((check_crossing L id1 c1 vd1).1.recent_crossings.filter
        (fun rc => decide (vd2.timestamp - rc.2 <
          (check_crossing L id1 c1 vd1).1.cooldown_seconds))).any
          (fun rc => decide (sqDist c2 rc.1 < 50 ^ 2)) = true := by
      rw [hrecent1, hcool1]
      have hB2b : sqDist c2 c1 < 2500 := by
        have h50 : ((50 : Int) ^ 2) = 2500 := by norm_num
        rw [h50] at hB2
        exact hB2
      simp [List.filter, hkeep, hB2b]
    rw [check_crossing_spatial_suppressed (check_crossing L id1 c1 vd1).1 id2 c2
      vd2 q2 hl2 hzone2 hzone2c (Or.inl hdir1)
      (hcnt2 vd2.timestamp (check_crossing L id1 c1 vd1).1.cooldown_seconds) hsp2]

/-- C8 witness: on the concrete two-vehicle square loop, identity 1 crossing
at t = 0 is recorded; identity 2 crossing 1 px away is suppressed at
t = 0.25 (within the window and radius) but recorded at t = 1 (a full second
later). -/
theorem C8_witness :
    ((check_crossing twoVehicleLoop 1 (5, 5) (mkDet 1 (5, 5) 0)).2).isSome = true ∧
    ((check_crossing (check_crossing twoVehicleLoop 1 (5, 5) (mkDet 1 (5, 5) 0)).1
      2 (6, 5) (mkDet 2 (6, 5) 1)).2).isSome = true ∧
    (check_crossing (check_crossing twoVehicleLoop 1 (5, 5) (mkDet 1 (5, 5) 0)).1
      2 (6, 5) (mkDet 2 (6, 5) (1 / 4))).2 = none := by
  have h1 := C8_spatial_cooldown twoVehicleLoop 1 2 (20, 5) (20, 6) (5, 5) (6, 5)
    (mkDet 1 (5, 5) 0) (mkDet 2 (6, 5) 1) (by decide) rfl rfl rfl
    (by with_unfolding_all decide) (by with_unfolding_all decide)
    (by with_unfolding_all decide) (by with_unfolding_all decide)
    (by with_unfolding_all decide) (by with_unfolding_all decide)
  have h2 := C8_spatial_cooldown twoVehicleLoop 1 2 (20, 5) (20, 6) (5, 5) (6, 5)
    (mkDet 1 (5, 5) 0) (mkDet 2 (6, 5) (1 / 4)) (by decide) rfl rfl rfl
    (by with_unfolding_all decide) (by with_unfolding_all decide)
    (by with_unfolding_all decide) (by with_unfolding_all decide)
    (by with_unfolding_all decide) (by with_unfolding_all decide)
  exact ⟨h1.1, h1.2.1 (by with_unfolding_all decide),
    h2.2.2 (by with_unfolding_all decide) (by with_unfolding_all decide)⟩

theorem trackerPairs_nil_dets (tracks : List Track) :
    trackerPairs tracks [] = [] := by
  unfold trackerPairs
  simp [flatten_map_const_nil]

theorem trackerPairs_nil_tracks (dets : List Point) :
    trackerPairs [] dets = [] := rfl

theorem applyMatches_no_accepted (tracks : List Track) (dets : List Point)
    (m : Nat) :
    applyMatches tracks dets [] m = tracks.filterMap (fun tr =>
      if tr.disappeared + 1 > m then none
      else some { tr with disappeared := tr.disappeared + 1 }) := by
  unfold applyMatches
  exact enumFrom_filterMap_snd (fun tr =>
    if tr.disappeared + 1 > m then none
    else some { tr with disappeared := tr.disappeared + 1 }) 0 tracks

theorem unmatchedDets_no_accepted (dets : List Point) :
    unmatchedDets dets [] = dets := by
  unfold unmatchedDets
  simp [List.any_nil, List.filter_true, List.enum_map_snd]

/-- C6 (amended): `VehicleTracker.update` coincides, on every tracker state
and every detection list, with the uniform greedy description from the spec —
process candidate (track, detection) pairs in ascending distance order,
accept a pairing iff neither side is consumed and the distance is within the
max-match-distance, register every unmatched detection as a fresh
monotonically-numbered track, and increment (dropping past the disappearance
threshold) every unmatched existing track — and the defaults are
max-match-distance 100 px (not 80 px) and disappearance threshold 30
frames. -/
theorem C6_tracker_greedy_amended :
    (∀ (T : VehicleTracker) (detections : List Point),
      trackerUpdate T detections = specTrackerUpdate T detections) ∧
    mkVehicleTracker.max_disappeared = 30 ∧
    mkVehicleTracker.max_distance = 100 := by
  refine ⟨?_, rfl, rfl⟩
  intro T dets
  by_cases hd : dets.isEmpty
  · have hdn : dets = [] := by
      cases dets with
      | nil => rfl
      | cons a l => simp [List.isEmpty] at hd
    subst hdn
    unfold trackerUpdate specTrackerUpdate
    rw [if_pos (show ([] : List Point).isEmpty = true from rfl)]
    dsimp only
    rw [trackerPairs_nil_dets]
    unfold stableSortBy greedyAssign
    dsimp only [List.foldl]
    rw [unmatchedDets_no_accepted, applyMatches_no_accepted]
    simp [registerAll]
  · by_cases ht : T.tracks.isEmpty
    · have htn : T.tracks = [] := by
        cases h : T.tracks with
        | nil => rfl
        | cons a l => rw [h] at ht; simp [List.isEmpty] at ht
      unfold trackerUpdate specTrackerUpdate
      rw [if_neg hd, if_pos ht]
      dsimp only
      rw [htn, trackerPairs_nil_tracks]
      unfold stableSortBy greedyAssign
      dsimp only [List.foldl]
      rw [unmatchedDets_no_accepted]
      simp [applyMatches]
    · unfold trackerUpdate specTrackerUpdate
      rw [if_neg hd, if_neg ht]

/-- One logging step preserves the simulation between the real (bounded)
logger and the no-eviction reference logger. -/
theorem loggerSim_step (s u : LoggerState) (e : LogEvent)
    (h : LoggerSim s u) :
    LoggerSim (log_vehicle_detection s e) (logVehicleDetectionU u e) := by
  obtain ⟨h1, h2, h3, h4, h5, h6, h7, h8, h9, h10⟩ := h
  unfold log_vehicle_detection logVehicleDetectionU finalizeCurrentInterval
    finalizeCurrentIntervalU startNewInterval
  dsimp only
  rw [h1, h2, h3, h5, h6, h7, h8, h9, h10]
  by_cases hb : e.now - u.current_interval_start ≥ u.interval_duration
  · rw [if_pos hb, if_pos hb]
    by_cases hr : (e.now - u.start_timestamp) / 60 > 0
    · rw [if_pos hr, if_pos hr]
      refine ⟨rfl, rfl, rfl, rfl, rfl, rfl, rfl, rfl, ?_, ?_⟩
      · exact lastN_cap_append 10 (by norm_num) u.recent_detections _
      · exact lastN_cap_append 50 (by norm_num) u.time_intervals _
    · rw [if_neg hr, if_neg hr]
      refine ⟨rfl, rfl, rfl, h4, rfl, rfl, rfl, rfl, ?_, ?_⟩
      · exact lastN_cap_append 10 (by norm_num) u.recent_detections _
      · exact lastN_cap_append 50 (by norm_num) u.time_intervals _
  · rw [if_neg hb, if_neg hb]
    by_cases hr : (e.now - u.start_timestamp) / 60 > 0
    · rw [if_pos hr, if_pos hr]
      refine ⟨rfl, rfl, rfl, rfl, rfl, rfl, rfl, rfl, ?_, rfl⟩
      exact lastN_cap_append 10 (by norm_num) u.recent_detections _
    · rw [if_neg hr, if_neg hr]
      refine ⟨rfl, rfl, rfl, h4, rfl, rfl, rfl, rfl, ?_, rfl⟩
      exact lastN_cap_append 10 (by norm_num) u.recent_detections _

/-- The simulation holds over any run of the two loggers. -/
theorem loggerSim_run (events : List LogEvent) :
    ∀ (s u : LoggerState), LoggerSim s u →
      LoggerSim (runLogger s events) (runLoggerU u events) := by
  induction events with
  | nil => intro s u h; exact h
  | cons e rest ih =>
      intro s u h
      exact ih _ _ (loggerSim_step s u e h)

/-- C9: over every sequence of `log_vehicle_detection` calls from a fresh
logger, the recent-detections list holds at most 10 entries and the archived
interval history at most 50 — and each equals the suffix of most recent
entries of the corresponding unbounded history, i.e. the oldest entries are
evicted first. -/
theorem C9_logger_bounded_eviction (t0 : Rat) (events : List LogEvent) :
    (runLogger (mkLogger t0) events).recent_detections.length ≤ 10 ∧
    (runLogger (mkLogger t0) events).time_intervals.length ≤ 50 ∧
    (runLogger (mkLogger t0) events).recent_detections
      = lastN 10 (runLoggerU (mkLogger t0) events).recent_detections ∧
    (runLogger (mkLogger t0) events).time_intervals
      = lastN 50 (runLoggerU (mkLogger t0) events).time_intervals := by
  have hinit : LoggerSim (mkLogger t0) (mkLogger t0) :=
    ⟨rfl, rfl, rfl, rfl, rfl, rfl, rfl, rfl, rfl, rfl⟩
  have h := loggerSim_run events (mkLogger t0) (mkLogger t0) hinit
  obtain ⟨_, _, _, _, _, _, _, _, h9, h10⟩ := h
  refine ⟨?_, ?_, h9, h10⟩
  · rw [h9]; exact lastN_length_le _ _
  · rw [h10]; exact lastN_length_le _ _

end TrafficMonitor
